import Mathlib

/-
Verification of the core transactional logic of `server/models/Book.js`:
the purchase workflow (`BookClass.buy`) and the content-sync workflow
(`BookClass.syncContent`).

Modelling conventions.  The JavaScript methods call several external
collaborators (the MongoDB models, the Stripe charge function, the GitHub
client, the email/mailchimp clients).  Those collaborators are not part of
this source file, so each one is modelled as an oracle field of an
environment structure: an `Except String _` value (or function) describing
the outcome the collaborator would produce on this run.  The workflows are
then pure functions from the environment to a result together with a trace
of external side effects (`BuyEvent` / `SyncEvent` lists), in the order the
source performs them.  A collaborator is "invoked" on a run exactly when a
corresponding event appears in the trace.  JavaScript numbers used as
prices are modelled as `Nat`; JS truthiness of a number is `≠ 0`, and an
absent (`undefined`) boolean field is `false`.  Thrown `Error` objects are
modelled as `Except.error` carrying the message string of the source.
-/

/-! ## Data model -/

/-- A book document, restricted to the fields `buy` reads
(`name slug price isInPreorder preorderPrice`).  `isInPreorder` and
`preorderPrice` are not declared in the schema, so an absent value is
modelled as `false` / `0` (both falsy in JS). -/
structure Book where
  id : Nat
  name : String
  slug : String
  price : Nat
  isInPreorder : Bool
  preorderPrice : Nat
  deriving Repr, DecidableEq

/-- An authenticated user, restricted to the fields `buy` reads. -/
structure User where
  id : Nat
  email : String
  displayName : String
  deriving Repr, DecidableEq

/-- An email template returned by `getEmailTemplate`. -/
structure EmailTemplate where
  subject : String
  message : String
  deriving Repr, DecidableEq

/-- The purchase record created by `Purchase.create` at the end of `buy`
(the `createdAt` timestamp is omitted; it carries no information for the
properties below). -/
structure PurchaseRecord where
  userId : Nat
  bookId : Nat
  amount : Nat
  stripeCharge : String
  isPreorder : Bool
  deriving Repr, DecidableEq

/-! ## JS truthiness helpers -/

/-- JS truthiness of a number: `0` (and `undefined`, modelled as `0`) is
falsy, every other value truthy. -/
def numTruthy (n : Nat) : Bool := n != 0

/-- JS `b && n` for a boolean `b` and a number `n`: the number if `b`
holds, else a falsy value (`0` stands in for `false`; only its truthiness
is ever consumed). -/
def jsAnd (b : Bool) (n : Nat) : Nat := if b then n else 0

/-- JS `a || b` on numbers: `a` if truthy, else `b`. -/
def jsOr (a b : Nat) : Nat := if a != 0 then a else b

/-! ## The purchase workflow (`BookClass.buy`) -/

/-- Line 163: `const isPreorder = !!book.isInPreorder && !!book.preorderPrice;`. -/
def bookIsPreorder (b : Book) : Bool := b.isInPreorder && numTruthy b.preorderPrice

/-- Line 164: `const price = (isPreorder && book.preorderPrice) || book.price;`. -/
def effectivePrice (b : Book) : Nat :=
  jsOr (jsAnd (bookIsPreorder b) b.preorderPrice) b.price

/-- An external side effect performed by `buy`, in source order:
the Stripe charge, the fire-and-forget `User.findByIdAndUpdate` adding the
book to `purchasedBookIds`, the email dispatch (or its logged failure),
the mailchimp subscribe (or its logged failure), and the final
`Purchase.create`. -/
inductive BuyEvent where
  | chargeAttempt (amount : Nat)
  | ownedSetUpdate (userId bookId : Nat)
  | emailDispatched (recipient subject : String)
  | emailErrorLogged (err : String)
  | subscribeDone (email listName : String)
  | subscribeErrorLogged (err : String)
  | purchaseCreated (record : PurchaseRecord)
  deriving Repr, DecidableEq

/-- Oracle environment for one run of `buy`: what each external
collaborator would return if invoked. `findBook` is the result of
`findById`, `purchaseCount` the result of
`Purchase.find({userId, bookId}).count()`, and the four `Except` fields
the outcomes of `stripeCharge`, `getEmailTemplate`, `sendEmail` and
`subscribe`. -/
structure BuyEnv where
  findBook : Option Book
  purchaseCount : Nat
  chargeResult : Except String String
  templateResult : Except String EmailTemplate
  emailResult : Except String Unit
  subscribeResult : Except String Unit

/-- Shallow embedding of `BookClass.buy` (Book.js lines 157-216).  Returns
the value the JS promise settles with (the created purchase record, or the
thrown/rejected error message) together with the trace of external side
effects in source order.  `sendEmail` and `subscribe` are fired without
being awaited and their rejections are caught and logged, so their
outcomes appear only as trace events, never in the result.
`User.findByIdAndUpdate` is likewise fire-and-forget.  `getEmailTemplate`
IS awaited on the result path, so its failure rejects the whole call. -/
def buy (env : BuyEnv) (user : Option User) (stripeToken : String) :
    Except String PurchaseRecord × List BuyEvent :=
  match env.findBook with
  | none => (Except.error "Book not found", [])
  | some book =>
    let isPreorder := bookIsPreorder book
    let price := jsOr (jsAnd isPreorder book.preorderPrice) book.price
    match user with
    | none => (Except.error "User required", [])
    | some u =>
      if env.purchaseCount > 0 then
        (Except.error "Already bought this book", [])
      else
        match env.chargeResult with
        | Except.error e => (Except.error e, [BuyEvent.chargeAttempt (price * 100)])
        | Except.ok chargeObj =>
          let trace0 := [BuyEvent.chargeAttempt (price * 100),
                         BuyEvent.ownedSetUpdate u.id book.id]
          match env.templateResult with
          | Except.error e => (Except.error e, trace0)
          | Except.ok template =>
            let emailEv := match env.emailResult with
              | Except.ok _ => BuyEvent.emailDispatched u.email template.subject
              | Except.error e => BuyEvent.emailErrorLogged e
            let subEv := match env.subscribeResult with
              | Except.ok _ =>
                  BuyEvent.subscribeDone u.email
                    (if isPreorder then "preordered" else "ordered")
              | Except.error e => BuyEvent.subscribeErrorLogged e
            let record : PurchaseRecord :=
              { userId := u.id
                bookId := book.id
                amount := price * 100
                stripeCharge := chargeObj
                isPreorder := isPreorder }
            (Except.ok record,
             trace0 ++ [emailEv, subEv, BuyEvent.purchaseCreated record])

/-! ## The chapter-file allow-list (`/chapter-([0-9]+)\.md/.test(f.path)`)

The source tests the path against an UNANCHORED regular expression: the
pattern `chapter-([0-9]+)\.md` may match anywhere inside the path, and the
digit run `[0-9]+` is any nonempty digit sequence (including `0` and
leading zeros).  The embedding below is a direct matcher for that regex
over the character list of the path. -/

/-- ASCII digit test, the character class `[0-9]`. -/
def isDigitCh (c : Char) : Bool := '0' ≤ c && c ≤ '9'

/-- Does the list start with the literal `md` (the tail of `\.md`)? -/
def mdHere : List Char → Bool
  | m :: d :: _ => m == 'm' && d == 'd'
  | _ => false

/-- Scanner for the regex fragment `[0-9]*\.md` at the head of the list:
either the literal `.md` starts here, or one more digit is consumed. -/
def restDotMd : List Char → Bool
  | [] => false
  | c :: rest => (c == '.' && mdHere rest) || (isDigitCh c && restDotMd rest)

/-- The regex fragment `[0-9]+\.md` at the head of the list. -/
def digitsThenDotMd : List Char → Bool
  | [] => false
  | c :: rest => isDigitCh c && restDotMd rest

/-- The literal characters `chapter-`. -/
def chapterLit : List Char := ['c', 'h', 'a', 'p', 't', 'e', 'r', '-']

/-- Does the whole pattern `chapter-[0-9]+\.md` match at the head of the
list? -/
def chapterHere : List Char → Bool
  | 'c' :: 'h' :: 'a' :: 'p' :: 't' :: 'e' :: 'r' :: '-' :: rest => digitsThenDotMd rest
  | _ => false

/-- Unanchored search: does the pattern match at some position? -/
def chapterSearch : List Char → Bool
  | [] => false
  | c :: rest => chapterHere (c :: rest) || chapterSearch rest

/-- Embedding of `/chapter-([0-9]+)\.md/.test(path)` (Book.js line 132). -/
def chapterRegexTest (path : String) : Bool := chapterSearch path.toList

/-! ## The content-sync workflow (`BookClass.syncContent`) -/

/-- A book document, restricted to the fields `syncContent` reads
(`githubRepo githubLastCommitSha`); the sha is `undefined` before the
first sync. -/
structure SyncBook where
  githubRepo : String
  githubLastCommitSha : Option String
  deriving Repr, DecidableEq

/-- One entry of the repository's top-level listing (`getContent` with the
empty path): its `type` field (`"file"`, `"dir"`, ...) and path. -/
structure GEntry where
  type : String
  path : String
  deriving Repr, DecidableEq

/-- An external side effect performed by `syncContent`:
a `Chapter.syncContent` invocation for a path, the success log
(`logger.info`) after it, the caught-failure log (`logger.error`), and the
final `book.update` advancing `githubLastCommitSha`. -/
inductive SyncEvent where
  | chapterSyncCall (path : String)
  | contentSynced (path : String)
  | syncErrorLogged (path err : String)
  | commitUpdated (sha : String)
  deriving Repr, DecidableEq

/-- Oracle environment for one run of `syncContent`. `commits` is the list
of commit shas `getCommits` returns (`limit: 1`, so at most its head is
consulted; `[]` models both a missing and an empty `data` array);
`folder` the top-level listing; `fetchFile` the outcome of the per-path
`getContent` (the base64-decoded, frontmatter-parsed text on success);
`chapterSyncRes` the outcome of `Chapter.syncContent` for a path. -/
structure SyncEnv where
  findBook : Option SyncBook
  commits : List String
  folder : List GEntry
  fetchFile : String → Except String String
  chapterSyncRes : String → Except String Unit

/-- Line 128-134 selection: an entry is processed iff its type is `file`
and its path is exactly `introduction.md` or the chapter regex matches. -/
def selectedEntry (f : GEntry) : Bool :=
  f.type == "file" && (f.path == "introduction.md" || chapterRegexTest f.path)

/-- Per-file branch of the `Promise.all` fan-out (Book.js lines 127-152):
skipped entries settle with no effect; a `getContent` rejection rejects
the file's promise (it is NOT caught); a `Chapter.syncContent` outcome is
caught, so either way the file's promise settles successfully, with the
info or error log in the trace. -/
def syncFile (env : SyncEnv) (f : GEntry) : Except String Unit × List SyncEvent :=
  if selectedEntry f then
    match env.fetchFile f.path with
    | Except.error e => (Except.error e, [])
    | Except.ok _content =>
      match env.chapterSyncRes f.path with
      | Except.ok _ =>
          (Except.ok (),
           [SyncEvent.chapterSyncCall f.path, SyncEvent.contentSynced f.path])
      | Except.error e =>
          (Except.ok (),
           [SyncEvent.chapterSyncCall f.path, SyncEvent.syncErrorLogged f.path e])
  else (Except.ok (), [])

/-- Aggregation of the fan-out results as `Promise.all` does: the combined
promise rejects iff some branch rejects (with such a branch's error). -/
def firstError : List (Except String Unit × List SyncEvent) → Except String Unit
  | [] => Except.ok ()
  | x :: rest =>
    match x.1 with
    | Except.error e => Except.error e
    | Except.ok _ => firstError rest

/-- Shallow embedding of `BookClass.syncContent` (Book.js lines 99-155).
Result: `ok` iff the run reached and performed the final `book.update`;
otherwise the thrown/rejected error message.  The trace collects the side
effects of every branch of the fan-out (in JS the branches are not
cancelled when a sibling rejects), followed by the commit-marker update
when `Promise.all` resolved. -/
def syncContent (env : SyncEnv) : Except String Unit × List SyncEvent :=
  match env.findBook with
  | none => (Except.error "Book not found", [])
  | some book =>
    match env.commits with
    | [] => (Except.error "No change in content!", [])
    | sha :: _ =>
      if book.githubLastCommitSha = some sha then
        (Except.error "No change in content!", [])
      else
        let results := env.folder.map (syncFile env)
        let trace := (results.map Prod.snd).flatten
        match firstError results with
        | Except.error e => (Except.error e, trace)
        | Except.ok _ => (Except.ok (), trace ++ [SyncEvent.commitUpdated sha])

/-! ## The spec's reading of the allow-list (for claim C5)

The spec describes the chapter pattern as "`chapter-<positive integer>`":
a path that IS `chapter-N.md` for a positive integer `N` written in
canonical decimal.  This predicate follows the spec's words and is
compared against the source's regex above. -/

/-- Exact suffix `[0-9]*\.md` ending the string: digits up to a final,
literal `.md` with nothing after it. -/
def digitsDotMdEnd : List Char → Bool
  | '.' :: 'm' :: 'd' :: [] => true
  | c :: rest => isDigitCh c && digitsDotMdEnd rest
  | [] => false

/-- Canonical decimal of a positive integer, then the final `.md`. -/
def posIntThenDotMdEnd : List Char → Bool
  | c :: rest => isDigitCh c && c != '0' && digitsDotMdEnd rest
  | [] => false

/-- Modelled from the spec: "matches a recognized chapter-<positive
integer> pattern" read as: the path is exactly `chapter-N.md` with `N` a
positive integer in canonical decimal. -/
def specChapterName (path : String) : Bool :=
  match path.toList with
  | 'c' :: 'h' :: 'a' :: 'p' :: 't' :: 'e' :: 'r' :: '-' :: rest => posIntThenDotMdEnd rest
  | _ => false

/-- Modelled from the spec: the claim's selection rule — a regular file
whose path is exactly `introduction.md` or is a `chapter-<positive
integer>` name. -/
def specSelectedEntry (f : GEntry) : Bool :=
  f.type == "file" && (f.path == "introduction.md" || specChapterName f.path)

/-! ## Helper lemmas -/

/-- The effective price in spec form: the preorder price when the book is
flagged as in preorder and has a (truthy) preorder price, else the
standard price. -/
theorem effectivePrice_eq_spec (b : Book) :
    effectivePrice b =
      if b.isInPreorder = true ∧ b.preorderPrice ≠ 0 then b.preorderPrice
      else b.price := by
  unfold effectivePrice bookIsPreorder jsOr jsAnd numTruthy
  by_cases h1 : b.isInPreorder = true <;> by_cases h2 : b.preorderPrice = 0 <;>
    simp [h1, h2]

/-! ## Purchase-workflow theorems -/

/-- C1: if the purchase ledger already holds a record for (user, book)
(the `Purchase.find(...).count()` result is positive), `buy` fails with
the `AlreadyPurchased` error (`"Already bought this book"`) and its
side-effect trace is empty: the payment gateway is never invoked, no
purchase record is created and no notification is dispatched. -/
theorem buy_alreadyPurchased_noEffects
    (env : BuyEnv) (b : Book) (u : User) (tok : String)
    (hb : env.findBook = some b) (hc : 0 < env.purchaseCount) :
    buy env (some u) tok = (Except.error "Already bought this book", []) := by
  simp [buy, hb, hc]

/-- C2: on a successful purchase, the effective price is the preorder
price exactly when the book is flagged as in preorder with a nonzero
preorder price, else the standard price; the gateway is charged that
price times 100 minor units, and the created record stores the same
amount and a preorder flag equal to whether the preorder price applied. -/
theorem buy_effectivePricing
    (env : BuyEnv) (b : Book) (u : User) (tok receipt : String)
    (tmpl : EmailTemplate)
    (hb : env.findBook = some b) (hn : env.purchaseCount = 0)
    (hch : env.chargeResult = Except.ok receipt)
    (ht : env.templateResult = Except.ok tmpl) :
    ∃ record : PurchaseRecord,
      (buy env (some u) tok).1 = Except.ok record ∧
      record.amount =
        (if b.isInPreorder = true ∧ b.preorderPrice ≠ 0 then b.preorderPrice
         else b.price) * 100 ∧
      record.isPreorder = (b.isInPreorder && b.preorderPrice != 0) ∧
      BuyEvent.chargeAttempt record.amount ∈ (buy env (some u) tok).2 := by
  refine ⟨{ userId := u.id, bookId := b.id, amount := effectivePrice b * 100,
            stripeCharge := receipt, isPreorder := bookIsPreorder b },
          ?_, ?_, ?_, ?_⟩
  · simp [buy, hb, hn, hch, ht, effectivePrice]
  · rw [effectivePrice_eq_spec]
  · simp [bookIsPreorder, numTruthy]
  · simp [buy, hb, hn, hch, ht, effectivePrice]

/-- C6: if the gateway charge fails, `buy` rejects with that very error
and the trace holds only the charge attempt: no purchase record, no
owned-set update, no notification. -/
theorem buy_paymentFailure_noRecord
    (env : BuyEnv) (b : Book) (u : User) (tok e : String)
    (hb : env.findBook = some b) (hn : env.purchaseCount = 0)
    (hch : env.chargeResult = Except.error e) :
    buy env (some u) tok =
      (Except.error e, [BuyEvent.chargeAttempt (effectivePrice b * 100)]) := by
  simp [buy, hb, hn, hch, effectivePrice]

/-- C7: the result of `buy` does not depend on the email or subscribe
outcomes, and on the success path a record is still created (it appears
in the trace) even when both notifications fail. -/
theorem buy_notificationFailure_harmless
    (env : BuyEnv) (b : Book) (u : User) (tok receipt : String)
    (tmpl : EmailTemplate) (r s : Except String Unit)
    (hb : env.findBook = some b) (hn : env.purchaseCount = 0)
    (hch : env.chargeResult = Except.ok receipt)
    (ht : env.templateResult = Except.ok tmpl) :
    (buy { env with emailResult := r, subscribeResult := s } (some u) tok).1
        = (buy env (some u) tok).1 ∧
    ∃ record : PurchaseRecord,
      (buy { env with emailResult := r, subscribeResult := s } (some u) tok).1
          = Except.ok record ∧
      BuyEvent.purchaseCreated record ∈
        (buy { env with emailResult := r, subscribeResult := s } (some u) tok).2 := by
  constructor
  · simp [buy, hb, hn, hch, ht]
  · refine ⟨{ userId := u.id, bookId := b.id, amount := effectivePrice b * 100,
              stripeCharge := receipt, isPreorder := bookIsPreorder b },
            ?_, ?_⟩ <;>
      simp [buy, hb, hn, hch, ht, effectivePrice]

/-- C8: the email-template fetch is awaited between the charge and the
record creation, so when it fails after a successful charge, `buy`
rejects with the template error and the trace shows the charge (and the
owned-set update) but no created record. -/
theorem buy_templateFailure_afterCharge
    (env : BuyEnv) (b : Book) (u : User) (tok receipt e : String)
    (hb : env.findBook = some b) (hn : env.purchaseCount = 0)
    (hch : env.chargeResult = Except.ok receipt)
    (ht : env.templateResult = Except.error e) :
    buy env (some u) tok =
      (Except.error e,
       [BuyEvent.chargeAttempt (effectivePrice b * 100),
        BuyEvent.ownedSetUpdate u.id b.id]) := by
  simp [buy, hb, hn, hch, ht, effectivePrice]

/-- C10: a zero (falsy) preorder price is treated as unset: even with the
preorder flag on, the purchase charges the standard price times 100 and
records `isPreorder = false`. -/
theorem buy_zeroPreorderPrice_standard
    (env : BuyEnv) (b : Book) (u : User) (tok receipt : String)
    (tmpl : EmailTemplate)
    (hb : env.findBook = some b)
    (hpre : b.isInPreorder = true) (hz : b.preorderPrice = 0)
    (hn : env.purchaseCount = 0)
    (hch : env.chargeResult = Except.ok receipt)
    (ht : env.templateResult = Except.ok tmpl) :
    ∃ record : PurchaseRecord,
      (buy env (some u) tok).1 = Except.ok record ∧
      record.amount = b.price * 100 ∧
      record.isPreorder = false ∧
      BuyEvent.chargeAttempt (b.price * 100) ∈ (buy env (some u) tok).2 := by
  refine ⟨{ userId := u.id, bookId := b.id, amount := b.price * 100,
            stripeCharge := receipt, isPreorder := false },
          ?_, ?_, ?_, ?_⟩ <;>
    simp [buy, hb, hn, hch, ht, bookIsPreorder, numTruthy, jsAnd, jsOr, hz]

/-! ## Content-sync helper lemmas -/

/-- A fan-out branch settles successfully whenever its fetch succeeds (or
the entry is skipped): a `Chapter.syncContent` failure is caught. -/
theorem syncFile_fst_ok (env : SyncEnv) (f : GEntry)
    (h : selectedEntry f = true → ∃ s, env.fetchFile f.path = Except.ok s) :
    (syncFile env f).1 = Except.ok () := by
  unfold syncFile
  by_cases hs : selectedEntry f = true
  · obtain ⟨s, hfe⟩ := h hs
    cases hcs : env.chapterSyncRes f.path <;> simp [hs, hfe, hcs]
  · simp [hs]

/-- `Promise.all` resolves when every branch resolves. -/
theorem firstError_ok (l : List (Except String Unit × List SyncEvent))
    (h : ∀ x ∈ l, x.1 = Except.ok ()) : firstError l = Except.ok () := by
  induction l with
  | nil => rfl
  | cons y rest ih =>
    have hy := h y (List.mem_cons_self y rest)
    simp only [firstError]
    rw [hy]
    exact ih fun x hx => h x (List.mem_cons_of_mem y hx)

/-- `Promise.all` rejects when some branch rejects. -/
theorem firstError_has_error
    (l : List (Except String Unit × List SyncEvent))
    (x : Except String Unit × List SyncEvent) (e : String)
    (hx : x ∈ l) (he : x.1 = Except.error e) :
    ∃ err, firstError l = Except.error err := by
  induction l with
  | nil => cases hx
  | cons y rest ih =>
    cases hy : y.1 with
    | error e2 => exact ⟨e2, by simp only [firstError]; rw [hy]⟩
    | ok u =>
      rcases List.mem_cons.mp hx with rfl | hmem
      · rw [he] at hy; cases hy
      · obtain ⟨err, herr⟩ := ih hmem
        exact ⟨err, by simp only [firstError]; rw [hy]; exact herr⟩

/-- No fan-out branch ever advances the commit marker itself. -/
theorem syncFile_no_commitUpdate (env : SyncEnv) (f : GEntry) (sha : String) :
    SyncEvent.commitUpdated sha ∉ (syncFile env f).2 := by
  unfold syncFile
  by_cases hs : selectedEntry f = true
  · cases hfe : env.fetchFile f.path with
    | error e => simp [hs, hfe]
    | ok s => cases hcs : env.chapterSyncRes f.path <;> simp [hs, hfe, hcs]
  · simp [hs]

/-! ## Content-sync theorems -/

/-- C3: once the run passes the no-change check and every selected file's
fetch succeeds, a `Chapter.syncContent` failure for one file is logged
with that file's path and aborts nothing: the run still resolves, every
other selected file's outcome is in the trace, and the commit marker is
advanced unconditionally. -/
theorem syncContent_partialFailure_isolated
    (env : SyncEnv) (book : SyncBook) (sha : String) (rest : List String)
    (hb : env.findBook = some book) (hc : env.commits = sha :: rest)
    (hne : book.githubLastCommitSha ≠ some sha)
    (hfetch : ∀ f ∈ env.folder, selectedEntry f = true →
        ∃ s, env.fetchFile f.path = Except.ok s) :
    (syncContent env).1 = Except.ok () ∧
    SyncEvent.commitUpdated sha ∈ (syncContent env).2 ∧
    ∀ f ∈ env.folder, selectedEntry f = true →
      (∀ e, env.chapterSyncRes f.path = Except.error e →
          SyncEvent.syncErrorLogged f.path e ∈ (syncContent env).2) ∧
      (env.chapterSyncRes f.path = Except.ok () →
          SyncEvent.contentSynced f.path ∈ (syncContent env).2) := by
  have hok : firstError (env.folder.map (syncFile env)) = Except.ok () := by
    apply firstError_ok
    intro x hx
    rw [List.mem_map] at hx
    obtain ⟨f, hf, rfl⟩ := hx
    exact syncFile_fst_ok env f (hfetch f hf)
  have hsync : syncContent env =
      (Except.ok (),
       ((env.folder.map (syncFile env)).map Prod.snd).flatten
         ++ [SyncEvent.commitUpdated sha]) := by
    simp [syncContent, hb, hc, hne, hok]
  refine ⟨by rw [hsync], by rw [hsync]; simp, ?_⟩
  intro f hf hsel
  have hmem : ∀ ev : SyncEvent, ev ∈ (syncFile env f).2 →
      ev ∈ (syncContent env).2 := by
    intro ev hev
    rw [hsync]
    simp only [List.mem_append]
    left
    rw [List.mem_flatten]
    refine ⟨(syncFile env f).2, ?_, hev⟩
    rw [List.mem_map]
    exact ⟨syncFile env f, List.mem_map_of_mem _ hf, rfl⟩
  obtain ⟨s, hfe⟩ := hfetch f hf hsel
  constructor
  · intro e he
    exact hmem _ (by simp [syncFile, hsel, hfe, he])
  · intro hcs
    exact hmem _ (by simp [syncFile, hsel, hfe, hcs])

/-- C4: when the commit query returns nothing, or its latest sha equals
the stored one, `syncContent` fails with the no-change error before the
listing and the fan-out: the trace is empty, so no chapter write occurs
and the commit marker is untouched.  In particular a second sync right
after a successful one (stored sha = latest sha) performs zero writes. -/
theorem syncContent_noChange_idempotent
    (env : SyncEnv) (book : SyncBook)
    (hb : env.findBook = some book)
    (h : env.commits = [] ∨ ∃ sha rest, env.commits = sha :: rest ∧
        book.githubLastCommitSha = some sha) :
    syncContent env = (Except.error "No change in content!", []) := by
  rcases h with h | ⟨sha, rest, hc, hsha⟩
  · simp [syncContent, hb, h]
  · simp [syncContent, hb, hc, hsha]

/-- C9: a `getContent` rejection for one selected file (unlike a
`Chapter.syncContent` failure, which is caught) rejects the whole
`Promise.all`, so `syncContent` rejects and the commit marker is never
advanced. -/
theorem syncContent_fetchFailure_aborts
    (env : SyncEnv) (book : SyncBook) (sha : String) (rest : List String)
    (f : GEntry) (e : String)
    (hb : env.findBook = some book) (hc : env.commits = sha :: rest)
    (hne : book.githubLastCommitSha ≠ some sha)
    (hf : f ∈ env.folder) (hsel : selectedEntry f = true)
    (hfe : env.fetchFile f.path = Except.error e) :
    (∃ err, (syncContent env).1 = Except.error err) ∧
    ∀ s : String, SyncEvent.commitUpdated s ∉ (syncContent env).2 := by
  have hx : (syncFile env f).1 = Except.error e := by simp [syncFile, hsel, hfe]
  obtain ⟨err, herr⟩ := firstError_has_error (env.folder.map (syncFile env))
      (syncFile env f) e (List.mem_map_of_mem _ hf) hx
  have hsync : syncContent env =
      (Except.error err,
       ((env.folder.map (syncFile env)).map Prod.snd).flatten) := by
    simp [syncContent, hb, hc, hne, herr]
  constructor
  · exact ⟨err, by rw [hsync]⟩
  · intro s hmem
    rw [hsync] at hmem
    rw [List.mem_flatten] at hmem
    obtain ⟨tr, htr, hev⟩ := hmem
    rw [List.mem_map] at htr
    obtain ⟨x, hx2, rfl⟩ := htr
    rw [List.mem_map] at hx2
    obtain ⟨g, hg, rfl⟩ := hx2
    exact syncFile_no_commitUpdate env g s hev

/-! ## Characterizing the unanchored chapter regex -/

/-- Shape lemma for `mdHere`. -/
theorem mdHere_iff (l : List Char) : mdHere l = true ↔ ∃ t, l = 'm' :: 'd' :: t := by
  cases l with
  | nil => simp [mdHere]
  | cons m rest =>
    cases rest with
    | nil => simp [mdHere]
    | cons d t =>
      constructor
      · intro h
        simp only [mdHere, Bool.and_eq_true, beq_iff_eq] at h
        exact ⟨t, by rw [h.1, h.2]⟩
      · rintro ⟨t2, ht⟩
        injection ht with h1 h2
        injection h2 with h2 h3
        subst h1; subst h2
        simp [mdHere]

/-- Shape lemma for the `[0-9]*\.md` scanner: it accepts exactly the
lists made of a (possibly empty) digit run followed by a literal `.md`
and an arbitrary tail. -/
theorem restDotMd_iff (l : List Char) :
    restDotMd l = true ↔
      ∃ ds post, l = ds ++ '.' :: 'm' :: 'd' :: post ∧
        ∀ c ∈ ds, isDigitCh c = true := by
  induction l with
  | nil =>
    simp only [restDotMd, Bool.false_eq_true, false_iff]
    rintro ⟨ds, post, h, _⟩
    cases ds <;> simp at h
  | cons c rest ih =>
    constructor
    · intro h
      simp only [restDotMd, Bool.or_eq_true, Bool.and_eq_true, beq_iff_eq] at h
      rcases h with ⟨hc, hmd⟩ | ⟨hd, hr⟩
      · obtain ⟨t, rfl⟩ := (mdHere_iff rest).mp hmd
        exact ⟨[], t, by rw [hc]; rfl, by simp⟩
      · obtain ⟨ds, post, rfl, hds⟩ := ih.mp hr
        refine ⟨c :: ds, post, rfl, ?_⟩
        intro x hx
        rcases List.mem_cons.mp hx with rfl | hx
        · exact hd
        · exact hds x hx
    · rintro ⟨ds, post, he, hds⟩
      cases ds with
      | nil =>
        rw [List.nil_append] at he
        injection he with h1 h2
        subst h1; subst h2
        simp [restDotMd, mdHere]
      | cons d ds2 =>
        rw [List.cons_append] at he
        injection he with h1 h2
        subst h1
        simp only [restDotMd, Bool.or_eq_true, Bool.and_eq_true]
        right
        refine ⟨hds c (by simp), ih.mpr ⟨ds2, post, h2, ?_⟩⟩
        intro x hx
        exact hds x (by simp [hx])

/-- Shape lemma for the `[0-9]+\.md` fragment: a nonempty digit run, then
a literal `.md`, then anything. -/
theorem digitsThenDotMd_iff (l : List Char) :
    digitsThenDotMd l = true ↔
      ∃ ds post, l = ds ++ '.' :: 'm' :: 'd' :: post ∧ ds ≠ [] ∧
        ∀ c ∈ ds, isDigitCh c = true := by
  cases l with
  | nil =>
    simp only [digitsThenDotMd, Bool.false_eq_true, false_iff]
    rintro ⟨ds, post, h, _, _⟩
    cases ds <;> simp at h
  | cons c rest =>
    constructor
    · intro h
      simp only [digitsThenDotMd, Bool.and_eq_true] at h
      obtain ⟨hd, hr⟩ := h
      obtain ⟨ds, post, rfl, hds⟩ := (restDotMd_iff rest).mp hr
      refine ⟨c :: ds, post, rfl, by simp, ?_⟩
      intro x hx
      rcases List.mem_cons.mp hx with rfl | hx
      · exact hd
      · exact hds x hx
    · rintro ⟨ds, post, he, hne, hds⟩
      cases ds with
      | nil => exact absurd rfl hne
      | cons d ds2 =>
        rw [List.cons_append] at he
        injection he with h1 h2
        subst h1
        simp only [digitsThenDotMd, Bool.and_eq_true]
        refine ⟨hds c (by simp), (restDotMd_iff rest).mpr ⟨ds2, post, h2, ?_⟩⟩
        intro x hx
        exact hds x (by simp [hx])

/-- The anchored-at-head match: the list starts with the literal
`chapter-` followed by a `[0-9]+\.md` fragment. -/
theorem chapterHere_iff (l : List Char) :
    chapterHere l = true ↔
      ∃ rest, l = chapterLit ++ rest ∧ digitsThenDotMd rest = true := by
  constructor
  · intro h
    unfold chapterHere at h
    split at h
    · rename_i rest
      exact ⟨rest, by simp [chapterLit], h⟩
    · cases h
  · rintro ⟨rest, rfl, hr⟩
    simpa [chapterHere, chapterLit] using hr

/-- The unanchored search finds the pattern iff some split of the input
puts a match at the head of the suffix. -/
theorem chapterSearch_iff (l : List Char) :
    chapterSearch l = true ↔
      ∃ pre suff, l = pre ++ suff ∧ chapterHere suff = true := by
  induction l with
  | nil =>
    simp only [chapterSearch, Bool.false_eq_true, false_iff]
    rintro ⟨pre, suff, h, hch⟩
    obtain ⟨rfl, rfl⟩ := List.append_eq_nil.mp h.symm
    cases hch
  | cons c rest ih =>
    simp only [chapterSearch, Bool.or_eq_true]
    constructor
    · rintro (h | h)
      · exact ⟨[], c :: rest, rfl, h⟩
      · obtain ⟨pre, suff, rfl, hch⟩ := ih.mp h
        exact ⟨c :: pre, suff, rfl, hch⟩
    · rintro ⟨pre, suff, he, hch⟩
      cases pre with
      | nil =>
        rw [List.nil_append] at he
        subst he
        exact Or.inl hch
      | cons p ps =>
        rw [List.cons_append] at he
        injection he with h1 h2
        exact Or.inr (ih.mpr ⟨ps, suff, h2, hch⟩)

/-- Full characterization of the source's regex test: the path contains,
anywhere, the literal `chapter-`, a nonempty digit run, and the literal
`.md`, in that order. -/
theorem chapterRegexTest_iff (path : String) :
    chapterRegexTest path = true ↔
      ∃ pre ds post, path.toList = pre ++ chapterLit ++ ds ++ '.' :: 'm' :: 'd' :: post ∧
        ds ≠ [] ∧ ∀ c ∈ ds, isDigitCh c = true := by
  unfold chapterRegexTest
  rw [chapterSearch_iff]
  constructor
  · rintro ⟨pre, suff, he, hch⟩
    obtain ⟨rest, rfl, hr⟩ := (chapterHere_iff suff).mp hch
    obtain ⟨ds, post, rfl, hne, hds⟩ := (digitsThenDotMd_iff rest).mp hr
    exact ⟨pre, ds, post, by rw [he]; simp [List.append_assoc], hne, hds⟩
  · rintro ⟨pre, ds, post, he, hne, hds⟩
    refine ⟨pre, chapterLit ++ (ds ++ '.' :: 'm' :: 'd' :: post),
        by rw [he]; simp [List.append_assoc], ?_⟩
    rw [chapterHere_iff]
    exact ⟨ds ++ '.' :: 'm' :: 'd' :: post, rfl,
      (digitsThenDotMd_iff _).mpr ⟨ds, post, rfl, hne, hds⟩⟩

/-! ## Claim C5: counterexample and amended allow-list -/

/-- C5 counterexample: the regular file `chapter-0.md` is selected for
syncing by the source (the regex digit run `[0-9]+` admits `0`), yet `0`
is not a positive integer, so the entry is outside the claim's
`chapter-<positive integer>` allow-list. -/
theorem selectedEntry_chapterZero_counterexample :
    selectedEntry { type := "file", path := "chapter-0.md" } = true ∧
    specSelectedEntry { type := "file", path := "chapter-0.md" } = false :=
  ⟨rfl, rfl⟩

/-- C5 (amended): a top-level entry is selected for syncing iff it is a
regular file whose path is exactly `introduction.md` or CONTAINS (the
regex is unanchored) the literal `chapter-`, then one or more digits
(any digits, `0` and leading zeros included), then the literal `.md`;
every other entry is skipped. -/
theorem selectedEntry_allowList (f : GEntry) :
    selectedEntry f = true ↔
      f.type = "file" ∧
      (f.path = "introduction.md" ∨
       ∃ pre ds post,
         f.path.toList = pre ++ chapterLit ++ ds ++ '.' :: 'm' :: 'd' :: post ∧
         ds ≠ [] ∧ ∀ c ∈ ds, isDigitCh c = true) := by
  unfold selectedEntry
  rw [Bool.and_eq_true, Bool.or_eq_true, beq_iff_eq, beq_iff_eq, chapterRegexTest_iff]

/-! ## Concrete fixtures for the witness theorems -/

/-- A preorder book with the spec's example prices (20 / 12). -/
def wBook : Book :=
  { id := 1, name := "Builder Book", slug := "builder-book", price := 20,
    isInPreorder := true, preorderPrice := 12 }

/-- A book flagged as in preorder but with a zero (falsy) preorder price. -/
def wBookZero : Book :=
  { id := 2, name := "Zero Preorder", slug := "zero-preorder", price := 20,
    isInPreorder := true, preorderPrice := 0 }

/-- A concrete buyer. -/
def wUser : User :=
  { id := 7, email := "reader@example.com", displayName := "Reader" }

/-- A concrete email template. -/
def wTmpl : EmailTemplate := { subject := "Thanks", message := "Enjoy" }

/-- A purchase environment in which every collaborator succeeds. -/
def wEnvOk : BuyEnv :=
  { findBook := some wBook, purchaseCount := 0,
    chargeResult := Except.ok "receipt-1", templateResult := Except.ok wTmpl,
    emailResult := Except.ok (), subscribeResult := Except.ok () }

/-- The successful environment with an existing ledger record. -/
def wEnvDup : BuyEnv := { wEnvOk with purchaseCount := 1 }

/-- The successful environment with a failing gateway. -/
def wEnvCharge : BuyEnv := { wEnvOk with chargeResult := Except.error "card declined" }

/-- The successful environment with a failing template fetch. -/
def wEnvTmpl : BuyEnv := { wEnvOk with templateResult := Except.error "template missing" }

/-- The successful environment selling the zero-preorder-price book. -/
def wEnvZero : BuyEnv := { wEnvOk with findBook := some wBookZero }

/-- A book document with `sha1` as the last synced commit. -/
def wSyncBook : SyncBook :=
  { githubRepo := "builderbook/book-1", githubLastCommitSha := some "sha1" }

/-- The spec's example top-level listing. -/
def wFolder : List GEntry :=
  [ { type := "file", path := "introduction.md" },
    { type := "file", path := "chapter-1.md" },
    { type := "file", path := "chapter-2.md" },
    { type := "file", path := "notes.txt" },
    { type := "dir", path := "img" } ]

/-- A sync environment with a new commit `sha2`, all fetches succeeding
and the chapter upsert failing exactly for `chapter-2.md`. -/
def wSyncEnv : SyncEnv :=
  { findBook := some wSyncBook, commits := ["sha2"], folder := wFolder,
    fetchFile := fun _ => Except.ok "content",
    chapterSyncRes := fun p =>
      if p = "chapter-2.md" then Except.error "boom" else Except.ok () }

/-- The sync environment when upstream has not moved past `sha1`. -/
def wSyncEnvNC : SyncEnv := { wSyncEnv with commits := ["sha1"] }

/-- The sync environment with the fetch failing for `chapter-1.md`. -/
def wSyncEnvFF : SyncEnv :=
  { wSyncEnv with fetchFile := fun p =>
      if p = "chapter-1.md" then Except.error "fetch failed"
      else Except.ok "content" }

/-! ## Witness theorems -/

/-- Witness for C1 at a concrete duplicate purchase. -/
theorem buy_alreadyPurchased_noEffects_witness :
    0 < wEnvDup.purchaseCount ∧
    buy wEnvDup (some wUser) "tok" =
      (Except.error "Already bought this book", []) :=
  ⟨by decide,
   buy_alreadyPurchased_noEffects wEnvDup wBook wUser "tok" rfl (by decide)⟩

/-- Witness for C2 at the spec's example book (price 20, preorder 12). -/
theorem buy_effectivePricing_witness :
    ∃ record : PurchaseRecord,
      (buy wEnvOk (some wUser) "tok").1 = Except.ok record ∧
      record.amount =
        (if wBook.isInPreorder = true ∧ wBook.preorderPrice ≠ 0 then wBook.preorderPrice
         else wBook.price) * 100 ∧
      record.isPreorder = (wBook.isInPreorder && wBook.preorderPrice != 0) ∧
      BuyEvent.chargeAttempt record.amount ∈ (buy wEnvOk (some wUser) "tok").2 :=
  buy_effectivePricing wEnvOk wBook wUser "tok" "receipt-1" wTmpl rfl rfl rfl rfl

/-- Witness for C6 at a concrete declined charge. -/
theorem buy_paymentFailure_noRecord_witness :
    buy wEnvCharge (some wUser) "tok" =
      (Except.error "card declined",
       [BuyEvent.chargeAttempt (effectivePrice wBook * 100)]) :=
  buy_paymentFailure_noRecord wEnvCharge wBook wUser "tok" "card declined" rfl rfl rfl

/-- Witness for C7 at concrete email and subscribe failures. -/
theorem buy_notificationFailure_harmless_witness :
    (buy { wEnvOk with emailResult := Except.error "smtp down",
                       subscribeResult := Except.error "list down" }
        (some wUser) "tok").1
      = (buy wEnvOk (some wUser) "tok").1 ∧
    ∃ record : PurchaseRecord,
      (buy { wEnvOk with emailResult := Except.error "smtp down",
                         subscribeResult := Except.error "list down" }
          (some wUser) "tok").1 = Except.ok record ∧
      BuyEvent.purchaseCreated record ∈
        (buy { wEnvOk with emailResult := Except.error "smtp down",
                           subscribeResult := Except.error "list down" }
            (some wUser) "tok").2 :=
  buy_notificationFailure_harmless wEnvOk wBook wUser "tok" "receipt-1" wTmpl
    (Except.error "smtp down") (Except.error "list down") rfl rfl rfl rfl

/-- Witness for C8 at a concrete template-fetch failure. -/
theorem buy_templateFailure_afterCharge_witness :
    buy wEnvTmpl (some wUser) "tok" =
      (Except.error "template missing",
       [BuyEvent.chargeAttempt (effectivePrice wBook * 100),
        BuyEvent.ownedSetUpdate wUser.id wBook.id]) :=
  buy_templateFailure_afterCharge wEnvTmpl wBook wUser "tok" "receipt-1"
    "template missing" rfl rfl rfl rfl

/-- Witness for C10 at the concrete zero-preorder-price book. -/
theorem buy_zeroPreorderPrice_standard_witness :
    ∃ record : PurchaseRecord,
      (buy wEnvZero (some wUser) "tok").1 = Except.ok record ∧
      record.amount = wBookZero.price * 100 ∧
      record.isPreorder = false ∧
      BuyEvent.chargeAttempt (wBookZero.price * 100) ∈ (buy wEnvZero (some wUser) "tok").2 :=
  buy_zeroPreorderPrice_standard wEnvZero wBookZero wUser "tok" "receipt-1" wTmpl
    rfl rfl rfl rfl rfl rfl

/-- Witness for C3 at the spec's example listing with `chapter-2.md`
failing: the two other selected files sync, the failure is logged, the
commit marker advances. -/
theorem syncContent_partialFailure_isolated_witness :
    (syncContent wSyncEnv).1 = Except.ok () ∧
    SyncEvent.commitUpdated "sha2" ∈ (syncContent wSyncEnv).2 ∧
    SyncEvent.syncErrorLogged "chapter-2.md" "boom" ∈ (syncContent wSyncEnv).2 ∧
    SyncEvent.contentSynced "introduction.md" ∈ (syncContent wSyncEnv).2 ∧
    SyncEvent.contentSynced "chapter-1.md" ∈ (syncContent wSyncEnv).2 := by
  obtain ⟨h1, h2, h3⟩ := syncContent_partialFailure_isolated wSyncEnv wSyncBook "sha2" []
    rfl rfl (by decide) (fun f hf hsel => ⟨"content", rfl⟩)
  refine ⟨h1, h2, ?_, ?_, ?_⟩
  · exact (h3 { type := "file", path := "chapter-2.md" } (by decide) (by decide)).1 "boom" rfl
  · exact (h3 { type := "file", path := "introduction.md" } (by decide) (by decide)).2 rfl
  · exact (h3 { type := "file", path := "chapter-1.md" } (by decide) (by decide)).2 rfl

/-- Witness for C4: a second sync with no new upstream commit is a no-op
with an empty trace. -/
theorem syncContent_noChange_idempotent_witness :
    syncContent wSyncEnvNC = (Except.error "No change in content!", []) :=
  syncContent_noChange_idempotent wSyncEnvNC wSyncBook rfl
    (Or.inr ⟨"sha1", [], rfl, rfl⟩)

/-- Witness for C9 at a concrete fetch failure for `chapter-1.md`. -/
theorem syncContent_fetchFailure_aborts_witness :
    (∃ err, (syncContent wSyncEnvFF).1 = Except.error err) ∧
    SyncEvent.commitUpdated "sha2" ∉ (syncContent wSyncEnvFF).2 := by
  have h := syncContent_fetchFailure_aborts wSyncEnvFF wSyncBook "sha2" []
      { type := "file", path := "chapter-1.md" } "fetch failed"
      rfl rfl (by decide) (by decide) (by decide) rfl
  exact ⟨h.1, h.2 "sha2"⟩
